import Mathlib

/-!
Shallow embedding of thrill/data/mix_stream.cpp (the Mix Stream subsystem of
the Thrill stream-multiplexing layer).

The C++ object MixStreamData is modelled as a state structure MixWorld; the
member functions Close, GetWriters, OnCloseStream and closed are modelled as
pure functions on that state.  Side effects that the closing protocol performs
(closing a sink, waiting on the counting semaphore, signalling it, stopping
timers, releasing the registry slot) are recorded in an event trace so that
counting claims can be stated about them.  Machine integers of type size_t are
modelled as Nat with explicit wrap-around modulo 2^64 where the source
increments or decrements them.
-/

namespace ThrillMix

/-- size_t arithmetic is modulo 2^64. -/
def USIZE : Nat := 2 ^ 64

/-- size_t increment by one (operator++ on a size_t counter). -/
def usizeAdd1 (n : Nat) : Nat := (n + 1) % USIZE

/-- size_t decrement by one (operator-- on a size_t counter): wraps at zero. -/
def usizeSub1 (n : Nat) : Nat := (n + (USIZE - 1)) % USIZE

/-- tlx::round_down_to_power_of_two (external tlx library primitive used by
MixStreamData::GetWriters): the largest power of two that is at most n, and 0
for n = 0; realised for the size_t value range as a scan over the 64 possible
exponents. -/
def round_down_to_power_of_two (n : Nat) : Nat :=
  (List.range 64).foldl (fun acc k => if 2 ^ k ≤ n then 2 ^ k else acc) 0

/-- Observable side effects of MixStreamData's member functions, in program
order.  sinkClose i models sinks_[i].Close() (sending the close sentinel to a
remote worker); loopbackClose w models closing the loopback sink of local
worker w's stream instance that is addressed from this worker
(MixLoopback(id_, w)->loopback_queue(local_worker_id_)->Close());
semWait/semSignal model sem_closing_blocks_.wait()/signal(); rxStop models
rx_lifetime_.StopEventually() and rx_timespan_.StopEventually(); txStop the
transmit-side counterparts; onAllClosed the OnAllClosed lifecycle hook;
activeStreamsDec the decrement of multiplexer_.active_streams_;
releaseMixStream the call multiplexer_.IntReleaseMixStream(id_,
local_worker_id_). -/
inductive Event where
  | sinkClose : Nat → Event
  | loopbackClose : Nat → Event
  | semWait : Event
  | semSignal : Event
  | rxStop : Event
  | txStop : Event
  | onAllClosed : Event
  | activeStreamsDec : Event
  | releaseMixStream : Event
  deriving DecidableEq, Repr

/-- Where a Writer returned by GetWriters sends its blocks: either the
loopback sink of the stream instance owned by local worker w on this host
(reached through the multiplexer registry), or this instance's own network
sink sinks_[i]. -/
inductive WriterTarget where
  | loopback : Nat → WriterTarget
  | network : Nat → WriterTarget
  deriving DecidableEq, Repr

/-- A Writer as constructed by MixStreamData::GetWriters: the sink it flushes
to and the block size it was given. -/
structure Writer where
  target : WriterTarget
  block_size : Nat
  deriving DecidableEq, Repr

/-- State of one MixStreamData instance together with the parts of its
environment that its member functions read or write: job topology, the
multiplexer's shared accounting fields, the registry's loopback resolution for
this stream id, and the write_closed flags of the loopback sinks (addressed
from this worker) inside the per-worker target instances of the same stream.

loopback_resolved w models whether multiplexer_.MixLoopback(id_, w) returns a
non-null pointer; loopback_write_closed w models
MixLoopback(id_, w)->loopback_queue(local_worker_id_)->write_closed();
src_registered w models whether that sink has had set_src_mix_stream called
with this instance.  queue_src_closed i models whether source i has been
marked closed in this instance's mixing queue queue_. -/
structure MixWorld where
  num_hosts : Nat
  workers_per_host : Nat
  my_host_rank : Nat
  local_worker_id : Nat
  hard_ram_limit : Nat
  default_block_size : Nat
  is_closed : Bool
  sinks_closed : List Bool
  loopback_resolved : Nat → Bool
  loopback_write_closed : Nat → Bool
  src_registered : Nat → Bool
  queue_src_closed : Nat → Bool
  remaining_closing_blocks : Nat
  rx_net_blocks : Nat
  active_streams : Nat
  max_active_streams : Nat
  sem_value : Nat
  rx_lifetime_running : Bool
  rx_timespan_running : Bool
  tx_lifetime_running : Bool
  tx_timespan_running : Bool

/-- num_workers() = num_hosts() * workers_per_host(). -/
def MixWorld.num_workers (s : MixWorld) : Nat :=
  s.num_hosts * s.workers_per_host

/-- Modelled from the spec: MixBlockQueue::write_closed() (the mixing queue's
implementation lives in mix_block_queue.hpp, which is not among the provided
sources) is "true once every source has called Close". -/
def MixWorld.queue_write_closed (s : MixWorld) : Bool :=
  (List.range s.num_workers).all s.queue_src_closed

/-- Modelled from the spec: the initial value of remaining_closing_blocks_,
set by the StreamData base-class constructor (stream_data.hpp, not among the
provided sources): "remaining_closing_acks starts at
(num_hosts − 1) × workers_per_host". -/
def initRemainingClosingBlocks (num_hosts workers_per_host : Nat) : Nat :=
  (num_hosts - 1) * workers_per_host

/-- MixStreamData::closed() const, translated line by line:
if (is_closed_) return true; bool closed = true;
closed = closed && queue_.write_closed(); return closed. -/
def MixStreamData.closed (s : MixWorld) : Bool :=
  if s.is_closed then true
  else true && s.queue_write_closed

/-- MixStreamData::Close().  Returns the new state and the trace of effects.
Step 0: if is_closed_ already set, return at once; otherwise set it.
Step 1: close every not-yet-closed sink in sinks_.
Step 2: for every local worker w < workers_per_host, resolve
MixLoopback(id_, w); when non-null, close that instance's loopback sink
addressed from this worker unless it is already write_closed.
Step 3: wait (num_hosts − 1) * workers_per_host times on sem_closing_blocks_.
Step 4: stop the transmit timers and run the OnAllClosed hook.
Step 5: decrement active_streams_ and release the registry slot. -/
def MixStreamData.Close (s : MixWorld) : MixWorld × List Event :=
  if s.is_closed then (s, [])
  else
    let sinkEv := ((List.range s.sinks_closed.length).filter
        (fun i => !(s.sinks_closed.getD i true))).map Event.sinkClose
    let lbEv := ((List.range s.workers_per_host).filter
        (fun w => s.loopback_resolved w && !(s.loopback_write_closed w))).map
        Event.loopbackClose
    let waitEv := List.replicate ((s.num_hosts - 1) * s.workers_per_host)
        Event.semWait
    ({ s with
        is_closed := true
        sinks_closed := s.sinks_closed.map (fun _ => true)
        loopback_write_closed := fun w =>
          if w < s.workers_per_host && s.loopback_resolved w then true
          else s.loopback_write_closed w
        tx_lifetime_running := false
        tx_timespan_running := false
        active_streams := usizeSub1 s.active_streams },
     sinkEv ++ lbEv ++ waitEv ++
       [Event.txStop, Event.onAllClosed, Event.activeStreamsDec,
        Event.releaseMixStream])

/-- The block-size computation at the top of MixStreamData::GetWriters():
size_t block_size_base = hard_ram_limit / 16 / num_workers;
size_t block_size = tlx::round_down_to_power_of_two(block_size_base);
if (block_size == 0 || block_size > default_block_size)
  block_size = default_block_size. -/
def getWritersBlockSize (s : MixWorld) : Nat :=
  let block_size_base := s.hard_ram_limit / 16 / s.num_workers
  let bs0 := round_down_to_power_of_two block_size_base
  if bs0 = 0 || s.default_block_size < bs0 then s.default_block_size else bs0

/-- The writer-construction double loop of MixStreamData::GetWriters(): for
host in [0, H) and worker in [0, W), a loopback writer to the destination
instance's sink when host equals the own host rank, otherwise a network
writer through sinks_[host * W + worker]. -/
def mkWriters (H W my bs : Nat) : List Writer :=
  (List.range H).flatMap (fun host =>
    (List.range W).map (fun worker =>
      if host = my then Writer.mk (WriterTarget.loopback worker) bs
      else Writer.mk (WriterTarget.network (host * W + worker)) bs))

/-- MixStreamData::GetWriters().  Computes the block size from the RAM budget,
updates the multiplexer's active-stream accounting, starts the transmit
timespan timer (idempotently), and returns one Writer per global worker in
host-major, worker-minor order: a loopback writer for destinations on this
host (registering this stream as the sink's source), a network writer through
sinks_[host * workers_per_host + worker] otherwise. -/
def MixStreamData.GetWriters (s : MixWorld) : MixWorld × List Writer :=
  let block_size := getWritersBlockSize s
  let active := usizeAdd1 s.active_streams
  let result :=
    mkWriters s.num_hosts s.workers_per_host s.my_host_rank block_size
  ({ s with
      active_streams := active
      max_active_streams := max s.max_active_streams active
      tx_timespan_running := true
      src_registered := fun w =>
        if s.my_host_rank < s.num_hosts && w < s.workers_per_host then true
        else s.src_registered w },
   result)

/-- MixStreamData::OnCloseStream(size_t from): marks the source closed in the
mixing queue, increments rx_net_blocks_, decrements remaining_closing_blocks_
(a size_t), stops the receive timers when that counter hits zero, and signals
sem_closing_blocks_ once.  The source precondition assert(from <
num_workers()) becomes a hypothesis of the theorems about this function. -/
def MixStreamData.OnCloseStream (s : MixWorld) (source : Nat) :
    MixWorld × List Event :=
  let r := usizeSub1 s.remaining_closing_blocks
  ({ s with
      queue_src_closed := fun i =>
        if i = source then true else s.queue_src_closed i
      rx_net_blocks := usizeAdd1 s.rx_net_blocks
      remaining_closing_blocks := r
      rx_lifetime_running := if r = 0 then false else s.rx_lifetime_running
      rx_timespan_running := if r = 0 then false else s.rx_timespan_running
      sem_value := s.sem_value + 1 },
   (if r = 0 then [Event.rxStop] else []) ++ [Event.semSignal])

/-- MixStream::~MixStream() — the facade destructor forces Close on the shared
MixStreamData instance. -/
def MixStream.destruct (s : MixWorld) : MixWorld × List Event :=
  MixStreamData.Close s

/-- Iterated ingestion of close notifications: runs OnCloseStream once for
each source in the list, in order, threading the state. -/
def runOnCloseStream (s : MixWorld) (srcs : List Nat) : MixWorld :=
  srcs.foldl (fun t f => (MixStreamData.OnCloseStream t f).1) s

/-- The block-size formula of claim C4, written from the claim's words:
round-down-to-power-of-two(hard_ram_limit / 16 / total_workers) in integer
arithmetic, except that when that value is zero or strictly greater than the
default block size, the default is used instead. -/
def blockSizeSpec (hard_ram_limit total_workers default_bs : Nat) : Nat :=
  let v := round_down_to_power_of_two (hard_ram_limit / 16 / total_workers)
  if v = 0 ∨ default_bs < v then default_bs else v

/-- A concrete MixWorld used by witnesses and counterexamples: a job with
2 hosts and 2 workers per host (4 global workers), seen from worker 0 of
host 0, freshly constructed (not closed, dummy sinks at positions of the own
host already counted as closed, all loopback targets resolved and open). -/
def W0 : MixWorld where
  num_hosts := 2
  workers_per_host := 2
  my_host_rank := 0
  local_worker_id := 0
  hard_ram_limit := 2 ^ 30
  default_block_size := 2 ^ 21
  is_closed := false
  sinks_closed := [true, true, false, false]
  loopback_resolved := fun _ => true
  loopback_write_closed := fun _ => false
  src_registered := fun _ => false
  queue_src_closed := fun _ => false
  remaining_closing_blocks := initRemainingClosingBlocks 2 2
  rx_net_blocks := 0
  active_streams := 0
  max_active_streams := 0
  sem_value := 0
  rx_lifetime_running := true
  rx_timespan_running := true
  tx_lifetime_running := true
  tx_timespan_running := false

/-- C1: on a not-yet-closed instance, Close waits on the counting semaphore
sem_closing_blocks_ exactly (num_hosts − 1) * workers_per_host times; in
particular a single-host job (num_hosts = 1) waits zero times. -/
theorem close_wait_count (s : MixWorld) (h : s.is_closed = false) :
    ((MixStreamData.Close s).2.count Event.semWait
        = (s.num_hosts - 1) * s.workers_per_host)
  ∧ (s.num_hosts = 1 → (MixStreamData.Close s).2.count Event.semWait = 0) := by
  have hmain : (MixStreamData.Close s).2.count Event.semWait
      = (s.num_hosts - 1) * s.workers_per_host := by
    simp only [MixStreamData.Close, h, Bool.false_eq_true, if_false,
      List.count_append]
    have h1 : ∀ l : List Nat,
        (l.map Event.sinkClose).count Event.semWait = 0 := by
      intro l
      refine List.count_eq_zero.mpr ?_
      intro hmem
      rcases List.mem_map.mp hmem with ⟨i, _, hi⟩
      exact Event.noConfusion hi
    have h2 : ∀ l : List Nat,
        (l.map Event.loopbackClose).count Event.semWait = 0 := by
      intro l
      refine List.count_eq_zero.mpr ?_
      intro hmem
      rcases List.mem_map.mp hmem with ⟨i, _, hi⟩
      exact Event.noConfusion hi
    simp [h1, h2, List.count_replicate, List.count_cons, List.count_nil]
  refine ⟨hmain, fun h1 => ?_⟩
  simp [hmain, h1]

/-- C1 witness: the concrete world W0 (2 hosts, 2 workers per host) is open,
and Close on it performs (2 − 1) * 2 = 2 semaphore waits. -/
theorem close_wait_count_witness :
    W0.is_closed = false
  ∧ (MixStreamData.Close W0).2.count Event.semWait
      = (W0.num_hosts - 1) * W0.workers_per_host :=
  ⟨rfl, (close_wait_count W0 rfl).1⟩

/-- C2: Close is idempotent.  On a not-yet-closed instance the first call sets
is_closed, closes every sink, runs the OnAllClosed hook, decrements the
active-stream counter and releases the registry slot; any further Close on the
resulting state — including the one the facade destructor forces — changes
nothing and produces no effects.  The last conjunct states the no-op fact for
every already-closed state. -/
theorem close_idempotent (s : MixWorld) (h : s.is_closed = false) :
    ((MixStreamData.Close s).1.is_closed = true)
  ∧ (MixStreamData.Close (MixStreamData.Close s).1
      = ((MixStreamData.Close s).1, ([] : List Event)))
  ∧ (MixStream.destruct (MixStreamData.Close s).1
      = ((MixStreamData.Close s).1, ([] : List Event)))
  ∧ ((MixStreamData.Close s).1.sinks_closed.all (fun b => b) = true)
  ∧ Event.onAllClosed ∈ (MixStreamData.Close s).2
  ∧ Event.activeStreamsDec ∈ (MixStreamData.Close s).2
  ∧ Event.releaseMixStream ∈ (MixStreamData.Close s).2
  ∧ (∀ t : MixWorld, t.is_closed = true →
      MixStreamData.Close t = (t, ([] : List Event))) := by
  have hclosed : (MixStreamData.Close s).1.is_closed = true := by
    simp [MixStreamData.Close, h]
  have hnoop : ∀ t : MixWorld, t.is_closed = true →
      MixStreamData.Close t = (t, ([] : List Event)) := by
    intro t ht
    simp [MixStreamData.Close, ht]
  refine ⟨hclosed, hnoop _ hclosed, hnoop _ hclosed, ?_, ?_, ?_, ?_, hnoop⟩
  · simp [MixStreamData.Close, h, List.all_eq_true]
  · simp [MixStreamData.Close, h]
  · simp [MixStreamData.Close, h]
  · simp [MixStreamData.Close, h]

/-- C2 witness: on the concrete open world W0, a second Close after the first
is a no-op with an empty effect trace. -/
theorem close_idempotent_witness :
    W0.is_closed = false
  ∧ MixStreamData.Close (MixStreamData.Close W0).1
      = ((MixStreamData.Close W0).1, ([] : List Event)) :=
  ⟨rfl, (close_idempotent W0 rfl).2.1⟩

/-- The world of the C3 counterexample: worker 0 of a 1-host, 1-worker job
whose Close has run (is_closed_ is set) but whose mixing queue still has its
only source open, so queue_.write_closed() is false. -/
def W3 : MixWorld :=
  { W0 with
      num_hosts := 1
      workers_per_host := 1
      is_closed := true
      sinks_closed := [true] }

/-- C3 counterexample: closed() as implemented returns true as soon as
is_closed_ is set, even when the mixing queue does not yet report
write_closed; the claimed conjunction is_closed AND write_closed is false on
W3 while closed() is true, so closed() is not that conjunction. -/
theorem closed_conjunction_cex :
    MixStreamData.closed W3 = true
  ∧ (W3.is_closed && W3.queue_write_closed) = false := by
  constructor
  · rfl
  · rfl

/-- C3 amended: closed() is the disjunction, not the conjunction: it returns
true exactly when the internal is_closed flag is set OR the mixing queue
reports all writers closed. -/
theorem closed_is_disjunction (s : MixWorld) :
    MixStreamData.closed s = (s.is_closed || s.queue_write_closed) := by
  unfold MixStreamData.closed
  cases h : s.is_closed <;> simp

/-- The world of the C5 counterexample: worker 0 is the only worker of the
only host (workers_per_host = 1), its stream resolves through the registry and
its loopback sink from itself is still open. -/
def W5 : MixWorld :=
  { W0 with
      num_hosts := 1
      workers_per_host := 1
      sinks_closed := [true] }

/-- C5 counterexample: in Close's loopback step the loop runs over every
local worker including the closing worker itself.  On W5 there is no other
local worker at all, yet the trace closes exactly one loopback sink — the one
addressed from this worker to its own instance (worker index
local_worker_id = 0) — so the closed sinks are not only those addressed to
*other* local workers. -/
theorem close_loopback_self_cex :
    W5.workers_per_host = 1
  ∧ W5.local_worker_id = 0
  ∧ Event.loopbackClose W5.local_worker_id ∈ (MixStreamData.Close W5).2 := by
  refine ⟨rfl, rfl, ?_⟩
  decide

/-- Helper: characterisation of the loopback-close effects in Close's trace. -/
theorem mem_close_trace_loopback (s : MixWorld) (h : s.is_closed = false)
    (w : Nat) :
    Event.loopbackClose w ∈ (MixStreamData.Close s).2
  ↔ (w < s.workers_per_host ∧ s.loopback_resolved w = true
      ∧ s.loopback_write_closed w = false) := by
  simp only [MixStreamData.Close, h, Bool.false_eq_true, if_false,
    List.mem_append, List.mem_map, List.mem_filter, List.mem_range,
    List.mem_replicate, List.mem_cons, List.not_mem_nil, or_false,
    Bool.and_eq_true, Bool.not_eq_true', Event.loopbackClose.injEq]
  constructor
  · rintro (((⟨i, _, hi⟩ | ⟨i, hi, rfl⟩) | ⟨_, hne⟩) | hc)
    · exact absurd hi (by simp)
    · exact ⟨hi.1, hi.2.1, hi.2.2⟩
    · exact absurd hne (by simp)
    · rcases hc with hc | hc | hc | hc <;> exact absurd hc (by simp)
  · rintro ⟨ha, hr, hw2⟩
    exact Or.inl (Or.inl (Or.inr ⟨w, ⟨ha, hr, hw2⟩, rfl⟩))

/-- C5 amended: in Close's loopback step, the loopback sinks that get closed
are exactly those addressed from this worker to every local worker on this
host — the closing worker itself included — whose stream instance the
registry resolves and whose sink is not already write-closed. -/
theorem close_loopback_exact (s : MixWorld) (h : s.is_closed = false)
    (w : Nat) :
    Event.loopbackClose w ∈ (MixStreamData.Close s).2
  ↔ (w < s.workers_per_host ∧ s.loopback_resolved w = true
      ∧ s.loopback_write_closed w = false) :=
  mem_close_trace_loopback s h w

/-- C5 witness: on the concrete world W0 (2 local workers, everything
resolved and open), worker 1 satisfies the conditions and its loopback sink
is closed by Close's loopback step. -/
theorem close_loopback_exact_witness :
    W0.is_closed = false
  ∧ Event.loopbackClose 1 ∈ (MixStreamData.Close W0).2 :=
  ⟨rfl, (close_loopback_exact W0 rfl 1).mpr (by decide)⟩

/-- The world of the C10 witness: like W0, but the registry fails to resolve
the stream instance of local worker 1 (MixLoopback returns a null pointer for
it). -/
def W10 : MixWorld :=
  { W0 with loopback_resolved := fun w => w ≠ 1 }

/-- C10: when the registry fails to resolve the loopback stream of a local
worker (MixLoopback returns null), Close skips that worker: no loopback-close
effect is emitted for it and its sink state is left untouched, and Close still
runs to completion (the trace still releases the stream). -/
theorem close_skips_unresolved (s : MixWorld) (h : s.is_closed = false)
    (w : Nat) (hw : s.loopback_resolved w = false) :
    Event.loopbackClose w ∉ (MixStreamData.Close s).2
  ∧ (MixStreamData.Close s).1.loopback_write_closed w
      = s.loopback_write_closed w
  ∧ Event.releaseMixStream ∈ (MixStreamData.Close s).2 := by
  refine ⟨?_, ?_, ?_⟩
  · intro hmem
    have := (mem_close_trace_loopback s h w).mp hmem
    rw [hw] at this
    exact Bool.noConfusion this.2.1
  · simp [MixStreamData.Close, h, hw]
  · simp [MixStreamData.Close, h]

/-- C10 witness: on W10 (worker 1's stream unresolved) Close emits no
loopback close for worker 1, leaves its sink state unchanged, and still
releases the stream. -/
theorem close_skips_unresolved_witness :
    W10.is_closed = false
  ∧ W10.loopback_resolved 1 = false
  ∧ Event.loopbackClose 1 ∉ (MixStreamData.Close W10).2 :=
  ⟨rfl, rfl, (close_skips_unresolved W10 rfl 1 rfl).1⟩

theorem usize_pos : 0 < USIZE :=
  pow_pos (by norm_num) 64

theorem usizeAdd1_eq (n : Nat) (h : n + 1 < USIZE) : usizeAdd1 n = n + 1 := by
  simp [usizeAdd1, Nat.mod_eq_of_lt h]

theorem usizeSub1_eq (n : Nat) (h0 : 0 < n) (h1 : n < USIZE) :
    usizeSub1 n = n - 1 := by
  have hpos := usize_pos
  unfold usizeSub1
  have h2 : n + (USIZE - 1) = (n - 1) + USIZE := by omega
  rw [h2, Nat.add_mod_right]
  exact Nat.mod_eq_of_lt (by omega)

/-- The world of the C4 witness: a job of 4 hosts with 2 workers each
(8 total workers) and a hard RAM limit of 1 GiB; the default block size is
2 MiB as in Thrill. -/
def W4 : MixWorld :=
  { W0 with
      num_hosts := 4
      sinks_closed := [true, true, false, false, false, false, false, false] }

/-- C4: every Writer returned by GetWriters carries the block size of the
claim's formula: round-down-to-power-of-two(hard_ram_limit / 16 /
total_workers) in integer arithmetic, replaced by the default block size when
that value is zero or strictly greater than the default. -/
theorem getwriters_block_size (s : MixWorld) (hp : 0 < s.num_workers)
    (wr : Writer) (hw : wr ∈ (MixStreamData.GetWriters s).2) :
    wr.block_size
      = blockSizeSpec s.hard_ram_limit s.num_workers s.default_block_size := by
  have hval : wr.block_size = getWritersBlockSize s := by
    simp only [MixStreamData.GetWriters, mkWriters, List.mem_flatMap,
      List.mem_map, List.mem_range] at hw
    obtain ⟨host, hh, worker, hwk, heq⟩ := hw
    by_cases hcase : host = s.my_host_rank <;> simp [hcase] at heq <;>
      rw [← heq]
  rw [hval]
  simp only [getWritersBlockSize, blockSizeSpec, Bool.or_eq_true,
    decide_eq_true_eq]

/-- C4 witness: on W4 (1 GiB budget, 8 workers, 2 MiB default) the first
returned Writer carries block size 2 MiB, which equals the claim's formula:
roundDownPow2(2^30 / 16 / 8) = 2^23 exceeds the default 2^21, so the default
is used. -/
theorem getwriters_block_size_witness :
    0 < W4.num_workers
  ∧ (Writer.mk (WriterTarget.loopback 0) (2 ^ 21))
      ∈ (MixStreamData.GetWriters W4).2
  ∧ ((2 : Nat) ^ 21
      = blockSizeSpec W4.hard_ram_limit W4.num_workers W4.default_block_size) :=
  ⟨by decide, by decide,
    getwriters_block_size W4 (by decide) (Writer.mk (WriterTarget.loopback 0) (2 ^ 21))
      (by decide)⟩

/-- C6: OnCloseStream(source) for a valid source marks the source closed in
the mixing queue, increments the received-block counter by one, decrements
remaining_closing_blocks_ by one, emits the receive-timer stop exactly when
that counter reaches zero (i.e. exactly when it was 1 before the call), and
signals the counting semaphore exactly once — its value rises by one whether
or not the counter reached zero. -/
theorem on_close_stream_effects (s : MixWorld) (source : Nat)
    (hsrc : source < s.num_workers)
    (hrx : s.rx_net_blocks + 1 < USIZE)
    (hrem0 : 0 < s.remaining_closing_blocks)
    (hrem1 : s.remaining_closing_blocks < USIZE) :
    ((MixStreamData.OnCloseStream s source).1.queue_src_closed source = true)
  ∧ ((MixStreamData.OnCloseStream s source).1.rx_net_blocks
      = s.rx_net_blocks + 1)
  ∧ ((MixStreamData.OnCloseStream s source).1.remaining_closing_blocks
      = s.remaining_closing_blocks - 1)
  ∧ (Event.rxStop ∈ (MixStreamData.OnCloseStream s source).2
      ↔ s.remaining_closing_blocks = 1)
  ∧ ((MixStreamData.OnCloseStream s source).2.count Event.semSignal = 1)
  ∧ ((MixStreamData.OnCloseStream s source).1.sem_value = s.sem_value + 1) := by
  have hsub : usizeSub1 s.remaining_closing_blocks
      = s.remaining_closing_blocks - 1 := usizeSub1_eq _ hrem0 hrem1
  have hadd : usizeAdd1 s.rx_net_blocks = s.rx_net_blocks + 1 :=
    usizeAdd1_eq _ hrx
  have hzero : (s.remaining_closing_blocks - 1 = 0)
      ↔ s.remaining_closing_blocks = 1 := by omega
  refine ⟨?_, ?_, ?_, ?_, ?_, ?_⟩
  · simp [MixStreamData.OnCloseStream]
  · simp [MixStreamData.OnCloseStream, hadd]
  · simp [MixStreamData.OnCloseStream, hsub]
  · simp only [MixStreamData.OnCloseStream, hsub]
    by_cases hone : s.remaining_closing_blocks = 1
    · simp [hone]
    · have : ¬(s.remaining_closing_blocks - 1 = 0) := by omega
      simp [this, hone]
  · simp only [MixStreamData.OnCloseStream, hsub]
    by_cases hone : s.remaining_closing_blocks - 1 = 0 <;> simp [hone]
  · simp [MixStreamData.OnCloseStream]

/-- C6 witness: on W0 (remaining_closing_blocks = 2) a close notification
from source 3 marks source 3 closed, bumps the block counter, leaves the
counter at 1, does not yet stop the receive timers, and signals the semaphore
once. -/
theorem on_close_stream_effects_witness :
    (3 < W0.num_workers ∧ 0 < W0.remaining_closing_blocks)
  ∧ ((MixStreamData.OnCloseStream W0 3).1.queue_src_closed 3 = true)
  ∧ ((MixStreamData.OnCloseStream W0 3).2.count Event.semSignal = 1) :=
  ⟨⟨by decide, by decide⟩,
    (on_close_stream_effects W0 3 (by decide) (by decide) (by decide)
      (by decide)).1,
    (on_close_stream_effects W0 3 (by decide) (by decide) (by decide)
      (by decide)).2.2.2.2.1⟩

/-- C7 counterexample: GetWriters increments the process-wide active-stream
counter on every call, not only on the first one, so the counter is not
balanced over a stream's lifetime: calling GetWriters twice on the open world
W0 (active_streams = 0) and then completing Close leaves the counter at 1, not
back at 0. -/
theorem active_streams_balance_cex :
    W0.active_streams = 0
  ∧ W0.is_closed = false
  ∧ ((MixStreamData.Close
        (MixStreamData.GetWriters
          (MixStreamData.GetWriters W0).1).1).1).active_streams = 1 := by
  refine ⟨rfl, rfl, ?_⟩
  decide

/-- C7 amended: the active-stream counter increases by exactly one on *every*
GetWriters call (not only the first), and decreases by exactly one when the
first effective Close completes, so the counter is balanced over the stream's
lifetime precisely when GetWriters is called exactly once; the high-water mark
never decreases under either operation. -/
theorem active_streams_per_call (s : MixWorld) (h : s.is_closed = false)
    (hb : s.active_streams + 1 < USIZE) :
    ((MixStreamData.GetWriters s).1.active_streams = s.active_streams + 1)
  ∧ ((MixStreamData.Close (MixStreamData.GetWriters s).1).1.active_streams
      = s.active_streams)
  ∧ (s.max_active_streams
      ≤ (MixStreamData.GetWriters s).1.max_active_streams)
  ∧ ((MixStreamData.Close s).1.max_active_streams = s.max_active_streams) := by
  have hadd : usizeAdd1 s.active_streams = s.active_streams + 1 :=
    usizeAdd1_eq _ hb
  have hsub : usizeSub1 (s.active_streams + 1) = s.active_streams := by
    have := usizeSub1_eq (s.active_streams + 1) (Nat.succ_pos _) hb
    simpa using this
  refine ⟨?_, ?_, ?_, ?_⟩
  · simp [MixStreamData.GetWriters, hadd]
  · simp [MixStreamData.GetWriters, MixStreamData.Close, h, hadd, hsub]
  · simp [MixStreamData.GetWriters, hadd]
  · cases hc : s.is_closed <;> simp [MixStreamData.Close, hc]

/-- C7 witness: on the open world W0 with active_streams = 0, one GetWriters
call followed by Close restores the counter to 0, and the high-water mark
does not decrease across the GetWriters call. -/
theorem active_streams_per_call_witness :
    W0.is_closed = false
  ∧ ((MixStreamData.Close (MixStreamData.GetWriters W0).1).1.active_streams
      = W0.active_streams)
  ∧ (W0.max_active_streams
      ≤ (MixStreamData.GetWriters W0).1.max_active_streams) :=
  ⟨rfl, (active_streams_per_call W0 rfl (by decide)).2.1,
    (active_streams_per_call W0 rfl (by decide)).2.2.1⟩

/-- Helper: iterating OnCloseStream k times from a counter value at least k
(and inside the size_t range) lowers the counter by exactly k, with no
wrap-around at any step. -/
theorem run_on_close_remaining (srcs : List Nat) (s : MixWorld)
    (hlen : srcs.length ≤ s.remaining_closing_blocks)
    (hb : s.remaining_closing_blocks < USIZE) :
    (runOnCloseStream s srcs).remaining_closing_blocks
      = s.remaining_closing_blocks - srcs.length := by
  induction srcs generalizing s with
  | nil => simp [runOnCloseStream]
  | cons a l ih =>
      have hlen' : l.length + 1 ≤ s.remaining_closing_blocks := by
        simpa using hlen
      have h0 : 0 < s.remaining_closing_blocks := by omega
      have hstep :
          ((MixStreamData.OnCloseStream s a).1).remaining_closing_blocks
            = s.remaining_closing_blocks - 1 := by
        simp [MixStreamData.OnCloseStream, usizeSub1_eq _ h0 hb]
      have hrun : runOnCloseStream s (a :: l)
          = runOnCloseStream (MixStreamData.OnCloseStream s a).1 l := by
        simp [runOnCloseStream]
      have hlb : l.length
          ≤ ((MixStreamData.OnCloseStream s a).1).remaining_closing_blocks := by
        rw [hstep]; omega
      have hbb : ((MixStreamData.OnCloseStream s a).1).remaining_closing_blocks
          < USIZE := by
        rw [hstep]; omega
      rw [hrun, ih _ hlb hbb, hstep, List.length_cons]
      omega

/-- C8: the remaining-closing-acknowledgements counter starts at
(num_hosts − 1) * workers_per_host; a run of k ≤ that many OnCloseStream
calls — each call decrementing it exactly once — leaves it at exactly
start − k (so it never wraps below zero along the way), and it reaches
exactly zero when every one of the expected acknowledgements has arrived. -/
theorem remaining_acks_countdown (s : MixWorld) (srcs : List Nat)
    (hinit : s.remaining_closing_blocks
        = initRemainingClosingBlocks s.num_hosts s.workers_per_host)
    (hlen : srcs.length
        ≤ initRemainingClosingBlocks s.num_hosts s.workers_per_host)
    (hb : initRemainingClosingBlocks s.num_hosts s.workers_per_host < USIZE) :
    ((runOnCloseStream s srcs).remaining_closing_blocks
        = initRemainingClosingBlocks s.num_hosts s.workers_per_host
            - srcs.length)
  ∧ (srcs.length = initRemainingClosingBlocks s.num_hosts s.workers_per_host →
        (runOnCloseStream s srcs).remaining_closing_blocks = 0) := by
  have hmain := run_on_close_remaining srcs s (by omega) (by omega)
  rw [hinit] at hmain
  exact ⟨hmain, fun hfull => by rw [hmain, hfull]; omega⟩

/-- C8 witness: on W0 the counter starts at (2 − 1) * 2 = 2; after close
notifications from the two remote workers (global indices 2 and 3) it is
exactly zero. -/
theorem remaining_acks_countdown_witness :
    W0.remaining_closing_blocks
        = initRemainingClosingBlocks W0.num_hosts W0.workers_per_host
  ∧ (runOnCloseStream W0 [2, 3]).remaining_closing_blocks = 0 :=
  ⟨rfl, (remaining_acks_countdown W0 [2, 3] rfl (by decide) (by decide)).2 rfl⟩

/-- Helper: the host-major, worker-minor double loop produces H * W writers. -/
theorem mkWriters_length (H W my bs : Nat) :
    (mkWriters H W my bs).length = H * W := by
  unfold mkWriters
  rw [List.length_flatMap]
  simp only [Function.comp_def, List.length_map, List.length_range]
  rw [List.map_const', List.sum_replicate, List.length_range, smul_eq_mul]

/-- Helper: the writer at flat position host * W + worker of the double loop
is the one the (host, worker) iteration emplaced. -/
theorem mkWriters_getElem (H W my bs host worker : Nat)
    (hh : host < H) (hw : worker < W) :
    (mkWriters H W my bs)[host * W + worker]?
      = some (if host = my then Writer.mk (WriterTarget.loopback worker) bs
              else Writer.mk (WriterTarget.network (host * W + worker)) bs) := by
  induction H with
  | zero => omega
  | succ n ih =>
      unfold mkWriters
      rw [List.range_succ, List.flatMap_append]
      rcases Nat.lt_succ_iff_lt_or_eq.mp hh with hlt | heq
      · have h1 : (host + 1) * W = host * W + W := by ring
        have h2 : (host + 1) * W ≤ n * W :=
          Nat.mul_le_mul_right W hlt
        have hidx : host * W + worker
            < ((List.range n).flatMap (fun h =>
                (List.range W).map (fun w =>
                  if h = my then Writer.mk (WriterTarget.loopback w) bs
                  else Writer.mk (WriterTarget.network (h * W + w)) bs))).length := by
          have hl : ((List.range n).flatMap (fun h =>
              (List.range W).map (fun w =>
                if h = my then Writer.mk (WriterTarget.loopback w) bs
                else Writer.mk (WriterTarget.network (h * W + w)) bs))).length
              = n * W := mkWriters_length n W my bs
          rw [hl]
          omega
        rw [List.getElem?_append_left hidx]
        exact ih hlt
      · subst heq
        have hl : ((List.range host).flatMap (fun h =>
            (List.range W).map (fun w =>
              if h = my then Writer.mk (WriterTarget.loopback w) bs
              else Writer.mk (WriterTarget.network (h * W + w)) bs))).length
            = host * W := mkWriters_length host W my bs
        rw [List.getElem?_append_right (by rw [hl]; omega)]
        rw [hl]
        have hsub : host * W + worker - host * W = worker := by omega
        simp only [List.flatMap_cons, List.flatMap_nil, List.append_nil, hsub]
        rw [List.getElem?_map, List.getElem?_range hw]
        rfl

/-- C9: GetWriters returns exactly num_hosts * workers_per_host writers in
host-major, worker-minor order: the writer at flat position
host * workers_per_host + worker is a loopback writer to the destination
instance's sink for this worker when host is the local host rank — in which
case this stream is registered as that sink's source — and otherwise a
network writer through this instance's sink at that same flat index. -/
theorem getwriters_layout (s : MixWorld) (host worker : Nat)
    (hh : host < s.num_hosts) (hw : worker < s.workers_per_host)
    (hres : ∀ w, w < s.workers_per_host → s.loopback_resolved w = true) :
    ((MixStreamData.GetWriters s).2.length = s.num_workers)
  ∧ (((MixStreamData.GetWriters s).2.map
        Writer.target)[host * s.workers_per_host + worker]?
      = some (if host = s.my_host_rank then WriterTarget.loopback worker
              else WriterTarget.network
                (host * s.workers_per_host + worker)))
  ∧ (host = s.my_host_rank →
      (MixStreamData.GetWriters s).1.src_registered worker = true) := by
  have hsnd : (MixStreamData.GetWriters s).2
      = mkWriters s.num_hosts s.workers_per_host s.my_host_rank
          (getWritersBlockSize s) := rfl
  refine ⟨?_, ?_, ?_⟩
  · rw [hsnd, mkWriters_length]
    rfl
  · rw [hsnd, List.getElem?_map,
      mkWriters_getElem s.num_hosts s.workers_per_host s.my_host_rank
        (getWritersBlockSize s) host worker hh hw]
    by_cases hcase : host = s.my_host_rank <;> simp [hcase]
  · intro hcase
    have hmy : s.my_host_rank < s.num_hosts := hcase ▸ hh
    simp [MixStreamData.GetWriters, hmy, hw]

/-- C9 witness: on W0 (2 hosts × 2 workers, own host 0), the writer list has
4 entries, position 1 * 2 + 0 = 2 is a network writer through sink 2 (host 1
is remote), and worker 1 of the local host got this stream registered as the
source of its loopback sink. -/
theorem getwriters_layout_witness :
    ((MixStreamData.GetWriters W0).2.length = W0.num_workers)
  ∧ (((MixStreamData.GetWriters W0).2.map Writer.target)[2]?
      = some (WriterTarget.network 2))
  ∧ ((MixStreamData.GetWriters W0).1.src_registered 0 = true) := by
  have h := getwriters_layout W0 1 0 (by decide) (by decide)
    (fun _ _ => rfl)
  have h0 := getwriters_layout W0 0 0 (by decide) (by decide)
    (fun _ _ => rfl)
  exact ⟨h.1, by simpa using h.2.1, h0.2.2 rfl⟩

end ThrillMix
